import Mathlib

/-!
The sdl-example program: the entry routine `main` of `src/main.cpp`

The program is one function.  It calls `SDL_Init(SDL_INIT_VIDEO)`, and

* when the returned status is non-zero it inserts `"SDL_Init Error: "`, the
  text returned by `SDL_GetError()` and `std::endl` into `std::cout`, and
  returns 1;
* otherwise it inserts `"Hello World!!"` into `std::cout`, calls `SDL_Quit()`
  and returns 0.

The embedding is a state-passing translation: the state is the chronological
list of effects performed so far (library calls and insertions into
`std::cout`), the external library is an explicit parameter giving the answers
of its calls, and `main` is a computation over that state returning the exit
code.  Effects are recorded at the level of the statements of `main`: an
insertion into `std::cout` is recorded where the statement is executed,
buffering inside the C++ runtime is not part of the model.
-/

namespace SdlExample

/-- One observable effect of the process. -/
inductive Effect where
  /-- A call `SDL_Init(flags)`. -/
  | SDL_Init (flags : Nat)
  /-- A call `SDL_GetError()`. -/
  | SDL_GetError
  /-- A call `SDL_Quit()`. -/
  | SDL_Quit
  /-- Characters inserted into `std::cout`. -/
  | write (text : String)
  /-- The flush of `std::cout` performed by `std::endl`. -/
  | flush
  deriving DecidableEq, Repr

/-- The external library, as far as `main` can observe it.  `SDL.h` is not part
of the repository, so the value of the constant `SDL_INIT_VIDEO` is a
parameter, as are the status returned by `SDL_Init` and the text returned by
`SDL_GetError`. -/
structure Library where
  /-- Value of the constant `SDL_INIT_VIDEO` of `SDL.h`. -/
  SDL_INIT_VIDEO : Nat
  /-- Status returned by the call `SDL_Init(SDL_INIT_VIDEO)` (a C `int`). -/
  initStatus : Int
  /-- Text returned by `SDL_GetError()`. -/
  errorText : String
  deriving Repr

/-- Order in which the operands of the chained `<<` of line 8 are evaluated.
Since C++17 the left operand of `<<` is sequenced before the right one, so
`"SDL_Init Error: "` is inserted before `SDL_GetError()` is called.  Before
C++17 the order is unspecified and the call may come first. -/
inductive Sequencing where
  | leftToRight
  | callFirst
  deriving DecidableEq, Repr

/-- Computations of the process: state passing over the effects so far. -/
abbrev Proc := StateM (List Effect)

/-- Record one effect after those already performed. -/
def emit (e : Effect) : Proc Unit :=
  modify fun t => t ++ [e]

/-- The call `SDL_Init(flags)`: recorded, answers the library's status. -/
def SDL_Init (lib : Library) (flags : Nat) : Proc Int := do
  emit (Effect.SDL_Init flags)
  pure lib.initStatus

/-- The call `SDL_GetError()`: recorded, answers the library's error text. -/
def SDL_GetError (lib : Library) : Proc String := do
  emit Effect.SDL_GetError
  pure lib.errorText

/-- The call `SDL_Quit()`. -/
def SDL_Quit : Proc Unit :=
  emit Effect.SDL_Quit

/-- The insertion `std::cout << s` of a character string. -/
def cout (s : String) : Proc Unit :=
  emit (Effect.write s)

/-- The manipulator `std::endl`: inserts a newline and flushes. -/
def endl : Proc Unit := do
  emit (Effect.write "\n")
  emit Effect.flush

/-- The statement of line 8,
`std::cout << "SDL_Init Error: " << SDL_GetError() << std::endl;`,
under either evaluation order of its operands. -/
def reportError (lib : Library) : Sequencing → Proc Unit
  | Sequencing.leftToRight => do
      cout "SDL_Init Error: "
      let e ← SDL_GetError lib
      cout e
      endl
  | Sequencing.callFirst => do
      let e ← SDL_GetError lib
      cout "SDL_Init Error: "
      cout e
      endl

/-- The function `main` of `src/main.cpp`.  The arguments `arc` and `argv` are
accepted as in the source. -/
def main (lib : Library) (sq : Sequencing) (arc : Int) (argv : List String) :
    Proc Int := do
  if (← SDL_Init lib lib.SDL_INIT_VIDEO) ≠ 0 then
    reportError lib sq
    return 1
  else
    cout "Hello World!!"
  SDL_Quit
  return 0

/-- A finished run: the exit code and the effects in the order they happened. -/
structure Run where
  exitCode : Int
  trace : List Effect
  deriving DecidableEq, Repr

/-- Run `main` from the start of the process, where no effect has happened. -/
def runMain (lib : Library) (sq : Sequencing) (arc : Int) (argv : List String) :
    Run :=
  let r := (main lib sq arc argv).run []
  { exitCode := r.1, trace := r.2 }

/-- The text written to standard output by a sequence of effects. -/
def stdoutOf : List Effect → String
  | [] => ""
  | Effect.write s :: t => s ++ stdoutOf t
  | _ :: t => stdoutOf t

/-- Whether an effect is a call into the library. -/
def Effect.isCall : Effect → Bool
  | Effect.SDL_Init _ => true
  | Effect.SDL_GetError => true
  | Effect.SDL_Quit => true
  | _ => false

/-- Whether an effect is a call of `SDL_Init`. -/
def Effect.isInit : Effect → Bool
  | Effect.SDL_Init _ => true
  | _ => false

/-- Whether an effect is an insertion into standard output. -/
def Effect.isWrite : Effect → Bool
  | Effect.write _ => true
  | _ => false

/-- The sequence of library calls among the effects. -/
def callsOf (t : List Effect) : List Effect :=
  t.filter Effect.isCall

/-- Whether an effect is a call of `SDL_Quit`. -/
def Effect.isQuit : Effect → Bool
  | Effect.SDL_Quit => true
  | _ => false

/-- Whether an effect is a call of `SDL_GetError`. -/
def Effect.isGetError : Effect → Bool
  | Effect.SDL_GetError => true
  | _ => false

/-- Every occurrence of an effect satisfying `p` lies strictly before every
occurrence of an effect satisfying `q`. -/
def Precedes (p q : Effect → Bool) (t : List Effect) : Prop :=
  ∀ (i j : Nat) (a b : Effect), t[i]? = some a → t[j]? = some b → p a = true → q b = true → i < j

/-- States of the library in the state machine of the specification. -/
inductive LibState where
  | NOT_INITIALIZED
  | INITIALIZED
  | FAILED
  deriving DecidableEq, Repr

/-- The state machine of the specification, following its words:
`NOT_INITIALIZED -init-> INITIALIZED | FAILED` (the status returned by the
call decides which: zero is success) and `INITIALIZED -quit-> NOT_INITIALIZED`.
An `init` or `quit` in any other state is not a transition of the machine
(`none`).  Reading the error text and inserting into standard output are not
transitions and leave the state as it is. -/
def specStep (status : Int) : LibState → Effect → Option LibState
  | LibState.NOT_INITIALIZED, Effect.SDL_Init _ =>
      some (if status = 0 then LibState.INITIALIZED else LibState.FAILED)
  | _, Effect.SDL_Init _ => none
  | LibState.INITIALIZED, Effect.SDL_Quit => some LibState.NOT_INITIALIZED
  | _, Effect.SDL_Quit => none
  | s, Effect.SDL_GetError => some s
  | s, Effect.write _ => some s
  | s, Effect.flush => some s

/-- Drive the specification's machine along a sequence of effects; `none` as
soon as a call is not a transition of the machine. -/
def specRun (status : Int) : LibState → List Effect → Option LibState
  | s, [] => some s
  | s, e :: t =>
      match specStep status s e with
      | some s' => specRun status s' t
      | none => none

/-- A library whose initialization succeeds. -/
def libOk : Library :=
  { SDL_INIT_VIDEO := 32, initStatus := 0, errorText := "" }

/-- A library whose initialization fails with a negative status. -/
def libFail : Library :=
  { SDL_INIT_VIDEO := 32, initStatus := -1, errorText := "No available video device" }

/-- A library whose initialization fails with a positive status and an empty
error text. -/
def libFailEmpty : Library :=
  { SDL_INIT_VIDEO := 32, initStatus := 7, errorText := "" }

/-! ## The runs of `main`, computed -/

/-- The run of `main` when `SDL_Init` returns 0. -/
theorem runMain_success (lib : Library) (sq : Sequencing) (arc : Int)
    (argv : List String) (h : lib.initStatus = 0) :
    runMain lib sq arc argv =
      { exitCode := 0
        trace := [Effect.SDL_Init lib.SDL_INIT_VIDEO, Effect.write "Hello World!!",
                  Effect.SDL_Quit] } := by
  simp [runMain, main, SDL_Init, SDL_Quit, cout, emit, h, StateT.run, bind,
    StateT.bind, modify, modifyGet, MonadStateOf.modifyGet, StateT.modifyGet, pure,
    StateT.pure]

/-- The run of `main` when `SDL_Init` returns a non-zero status and the operands
of line 8 are evaluated left to right. -/
theorem runMain_failure_leftToRight (lib : Library) (arc : Int)
    (argv : List String) (h : lib.initStatus ≠ 0) :
    runMain lib Sequencing.leftToRight arc argv =
      { exitCode := 1
        trace := [Effect.SDL_Init lib.SDL_INIT_VIDEO, Effect.write "SDL_Init Error: ",
                  Effect.SDL_GetError, Effect.write lib.errorText, Effect.write "\n",
                  Effect.flush] } := by
  simp [runMain, main, reportError, SDL_Init, SDL_GetError, cout, endl, emit, h,
    StateT.run, bind, StateT.bind, modify, modifyGet, MonadStateOf.modifyGet,
    StateT.modifyGet, pure, StateT.pure]

/-- The run of `main` when `SDL_Init` returns a non-zero status and
`SDL_GetError()` is called before the first insertion of line 8. -/
theorem runMain_failure_callFirst (lib : Library) (arc : Int)
    (argv : List String) (h : lib.initStatus ≠ 0) :
    runMain lib Sequencing.callFirst arc argv =
      { exitCode := 1
        trace := [Effect.SDL_Init lib.SDL_INIT_VIDEO, Effect.SDL_GetError,
                  Effect.write "SDL_Init Error: ", Effect.write lib.errorText,
                  Effect.write "\n", Effect.flush] } := by
  simp [runMain, main, reportError, SDL_Init, SDL_GetError, cout, endl, emit, h,
    StateT.run, bind, StateT.bind, modify, modifyGet, MonadStateOf.modifyGet,
    StateT.modifyGet, pure, StateT.pure]

/-- Appending the empty string changes nothing. -/
theorem str_append_empty (s : String) : s ++ "" = s := by
  apply String.ext
  simp

/-- Standard output of a failing run, whatever the evaluation order. -/
theorem stdout_failure (lib : Library) (sq : Sequencing) (arc : Int)
    (argv : List String) (h : lib.initStatus ≠ 0) :
    stdoutOf (runMain lib sq arc argv).trace =
      "SDL_Init Error: " ++ lib.errorText ++ "\n" := by
  cases sq
  · rw [runMain_failure_leftToRight lib arc argv h]
    simp [stdoutOf, str_append_empty, String.append_assoc]
  · rw [runMain_failure_callFirst lib arc argv h]
    simp [stdoutOf, str_append_empty, String.append_assoc]

/-- Exit code of a failing run. -/
theorem exitCode_failure (lib : Library) (sq : Sequencing) (arc : Int)
    (argv : List String) (h : lib.initStatus ≠ 0) :
    (runMain lib sq arc argv).exitCode = 1 := by
  cases sq
  · rw [runMain_failure_leftToRight lib arc argv h]
  · rw [runMain_failure_callFirst lib arc argv h]

/-- The library calls of a failing run, whatever the evaluation order. -/
theorem calls_failure (lib : Library) (sq : Sequencing) (arc : Int)
    (argv : List String) (h : lib.initStatus ≠ 0) :
    callsOf (runMain lib sq arc argv).trace =
      [Effect.SDL_Init lib.SDL_INIT_VIDEO, Effect.SDL_GetError] := by
  cases sq
  · rw [runMain_failure_leftToRight lib arc argv h]
    rfl
  · rw [runMain_failure_callFirst lib arc argv h]
    rfl

/-- A failing run does not call `SDL_Quit`. -/
theorem noQuit_failure (lib : Library) (sq : Sequencing) (arc : Int)
    (argv : List String) (h : lib.initStatus ≠ 0) :
    (runMain lib sq arc argv).trace.countP Effect.isQuit = 0 := by
  cases sq
  · rw [runMain_failure_leftToRight lib arc argv h]
    rfl
  · rw [runMain_failure_callFirst lib arc argv h]
    rfl

/-- A checker for `Precedes`: once an effect satisfying `q` has occurred, no
effect satisfying `p` occurs at that position or later. -/
def precedesB (p q : Effect → Bool) : List Effect → Bool
  | [] => true
  | a :: t => (!q a || (!p a && t.all fun b => !p b)) && precedesB p q t

/-- The checker is sound for `Precedes`. -/
theorem precedes_of_precedesB (p q : Effect → Bool) (t : List Effect)
    (h : precedesB p q t = true) : Precedes p q t := by
  induction t with
  | nil =>
      intro i j a b hi
      simp at hi
  | cons x t ih =>
      simp only [precedesB, Bool.and_eq_true, Bool.or_eq_true, Bool.not_eq_true',
        List.all_eq_true] at h
      obtain ⟨hx, ht⟩ := h
      intro i j a b hi hj ha hb
      cases j with
      | zero =>
          simp only [List.getElem?_cons_zero, Option.some.injEq] at hj
          subst hj
          rcases hx with hq | ⟨hpx, hpt⟩
          · rw [hq] at hb
            exact absurd hb (by decide)
          · cases i with
            | zero =>
                simp only [List.getElem?_cons_zero, Option.some.injEq] at hi
                subst hi
                rw [hpx] at ha
                exact absurd ha (by decide)
            | succ i =>
                simp only [List.getElem?_cons_succ] at hi
                have hmem : a ∈ t := List.getElem?_mem hi
                rw [hpt a hmem] at ha
                exact absurd ha (by decide)
      | succ j =>
          cases i with
          | zero => exact Nat.succ_pos j
          | succ i =>
              simp only [List.getElem?_cons_succ] at hi hj
              exact Nat.succ_lt_succ (ih ht i j a b hi hj ha hb)

/-! ## The claims -/

/-- C1: whenever `SDL_Init` returns 0, standard output is exactly
`Hello World!!` (nothing after it), the exit code is 0 and `SDL_Quit` is called
exactly once. -/
theorem C1_success_run (lib : Library) (sq : Sequencing) (arc : Int)
    (argv : List String) (h : lib.initStatus = 0) :
    stdoutOf (runMain lib sq arc argv).trace = "Hello World!!" ∧
    (runMain lib sq arc argv).exitCode = 0 ∧
    (runMain lib sq arc argv).trace.countP Effect.isQuit = 1 := by
  rw [runMain_success lib sq arc argv h]
  refine ⟨?_, rfl, rfl⟩
  simp [stdoutOf, str_append_empty]

/-- C1 at a library that succeeds, started with two arguments. -/
theorem C1_success_run_witness :
    libOk.initStatus = 0 ∧
    stdoutOf (runMain libOk Sequencing.leftToRight 2 ["prog", "x"]).trace
      = "Hello World!!" ∧
    (runMain libOk Sequencing.leftToRight 2 ["prog", "x"]).exitCode = 0 ∧
    (runMain libOk Sequencing.leftToRight 2 ["prog", "x"]).trace.countP
      Effect.isQuit = 1 :=
  ⟨by decide, C1_success_run libOk Sequencing.leftToRight 2 ["prog", "x"] (by decide)⟩

/-- C2: whenever `SDL_Init` returns a non-zero status and `SDL_GetError` returns
the text `E`, standard output is exactly `SDL_Init Error: ` followed by `E` and
one newline, the exit code is 1 and `SDL_Quit` is not called. -/
theorem C2_failure_run (lib : Library) (sq : Sequencing) (arc : Int)
    (argv : List String) (E : String) (h : lib.initStatus ≠ 0)
    (hE : lib.errorText = E) :
    stdoutOf (runMain lib sq arc argv).trace = "SDL_Init Error: " ++ E ++ "\n" ∧
    (runMain lib sq arc argv).exitCode = 1 ∧
    (runMain lib sq arc argv).trace.countP Effect.isQuit = 0 := by
  subst hE
  exact ⟨stdout_failure lib sq arc argv h, exitCode_failure lib sq arc argv h,
    noQuit_failure lib sq arc argv h⟩

/-- C2 at a library that fails with status -1. -/
theorem C2_failure_run_witness :
    libFail.initStatus ≠ 0 ∧ libFail.errorText = "No available video device" ∧
    stdoutOf (runMain libFail Sequencing.leftToRight 1 ["prog"]).trace
      = "SDL_Init Error: " ++ "No available video device" ++ "\n" ∧
    (runMain libFail Sequencing.leftToRight 1 ["prog"]).exitCode = 1 ∧
    (runMain libFail Sequencing.leftToRight 1 ["prog"]).trace.countP
      Effect.isQuit = 0 :=
  ⟨by decide, rfl,
    C2_failure_run libFail Sequencing.leftToRight 1 ["prog"]
      "No available video device" (by decide) rfl⟩

/-- C3: the exit code is 0 exactly when the status returned by `SDL_Init` is 0;
every non-zero status, of either sign, takes the failure branch (the diagnostic
is what is written, `SDL_Quit` is not called) and exits with 1. -/
theorem C3_exit_zero_iff_status_zero (lib : Library) (sq : Sequencing) (arc : Int)
    (argv : List String) :
    ((runMain lib sq arc argv).exitCode = 0 ↔ lib.initStatus = 0) ∧
    (lib.initStatus ≠ 0 →
      (runMain lib sq arc argv).exitCode = 1 ∧
      stdoutOf (runMain lib sq arc argv).trace
        = "SDL_Init Error: " ++ lib.errorText ++ "\n" ∧
      (runMain lib sq arc argv).trace.countP Effect.isQuit = 0) := by
  constructor
  · by_cases h : lib.initStatus = 0
    · rw [runMain_success lib sq arc argv h]
      simp [h]
    · rw [exitCode_failure lib sq arc argv h]
      simp [h]
  · intro h
    exact ⟨exitCode_failure lib sq arc argv h, stdout_failure lib sq arc argv h,
      noQuit_failure lib sq arc argv h⟩

/-- C3 at a negative and at a positive status: both exit with 1. -/
theorem C3_exit_zero_iff_status_zero_witness :
    (libFail.initStatus ≠ 0 ∧
      (runMain libFail Sequencing.leftToRight 1 ["prog"]).exitCode = 1) ∧
    (libFailEmpty.initStatus ≠ 0 ∧
      (runMain libFailEmpty Sequencing.callFirst 1 ["prog"]).exitCode = 1) :=
  ⟨⟨by decide,
      ((C3_exit_zero_iff_status_zero libFail Sequencing.leftToRight 1 ["prog"]).2
        (by decide)).1⟩,
    ⟨by decide,
      ((C3_exit_zero_iff_status_zero libFailEmpty Sequencing.callFirst 1 ["prog"]).2
        (by decide)).1⟩⟩

/-- C4 as stated fails: with a failing library whose error text is empty,
standard output is `SDL_Init Error: ` followed by a newline, which is neither
`SDL_Init Error: ` concatenated with the error text nor `Hello World!!`. -/
theorem C4_counterexample :
    ¬ (stdoutOf (runMain libFailEmpty Sequencing.leftToRight 1 ["prog"]).trace
          = "SDL_Init Error: " ++ libFailEmpty.errorText ∨
       stdoutOf (runMain libFailEmpty Sequencing.leftToRight 1 ["prog"]).trace
          = "Hello World!!") := by
  decide

/-- C4, amended: standard output is either exactly `SDL_Init Error: `
concatenated with the library's error text and one newline, or exactly
`Hello World!!`. -/
theorem C4_stdout_shape (lib : Library) (sq : Sequencing) (arc : Int)
    (argv : List String) :
    stdoutOf (runMain lib sq arc argv).trace
        = "SDL_Init Error: " ++ lib.errorText ++ "\n" ∨
    stdoutOf (runMain lib sq arc argv).trace = "Hello World!!" := by
  by_cases h : lib.initStatus = 0
  · right
    rw [runMain_success lib sq arc argv h]
    simp [stdoutOf, str_append_empty]
  · left
    exact stdout_failure lib sq arc argv h

/-- C5: two runs that differ only in their arguments (count and content) have
the same standard output, the same exit code and the same sequence of library
calls. -/
theorem C5_arguments_unused (lib : Library) (sq : Sequencing) (arc₁ arc₂ : Int)
    (argv₁ argv₂ : List String) :
    stdoutOf (runMain lib sq arc₁ argv₁).trace
        = stdoutOf (runMain lib sq arc₂ argv₂).trace ∧
    (runMain lib sq arc₁ argv₁).exitCode = (runMain lib sq arc₂ argv₂).exitCode ∧
    callsOf (runMain lib sq arc₁ argv₁).trace
        = callsOf (runMain lib sq arc₂ argv₂).trace :=
  ⟨rfl, rfl, rfl⟩

/-- C6: the exit code of `main` is 0 or 1, whatever `SDL_Init` returns. -/
theorem C6_exit_code_range (lib : Library) (sq : Sequencing) (arc : Int)
    (argv : List String) :
    (runMain lib sq arc argv).exitCode = 0 ∨ (runMain lib sq arc argv).exitCode = 1 := by
  by_cases h : lib.initStatus = 0
  · left
    rw [runMain_success lib sq arc argv h]
  · right
    exact exitCode_failure lib sq arc argv h

/-- C7: `SDL_Quit` is called at most once in every run. -/
theorem C7_quit_at_most_once (lib : Library) (sq : Sequencing) (arc : Int)
    (argv : List String) :
    (runMain lib sq arc argv).trace.countP Effect.isQuit ≤ 1 := by
  by_cases h : lib.initStatus = 0
  · rw [runMain_success lib sq arc argv h]
    exact Nat.le_refl 1
  · rw [noQuit_failure lib sq arc argv h]
    exact Nat.zero_le 1

/-- C8: `SDL_Init` is called at most once in every run; in a run where it
fails it is called exactly once, that is, it is not called again. -/
theorem C8_init_at_most_once (lib : Library) (sq : Sequencing) (arc : Int)
    (argv : List String) :
    (runMain lib sq arc argv).trace.countP Effect.isInit ≤ 1 ∧
    (lib.initStatus ≠ 0 →
      (runMain lib sq arc argv).trace.countP Effect.isInit = 1) := by
  by_cases h : lib.initStatus = 0
  · rw [runMain_success lib sq arc argv h]
    exact ⟨Nat.le_refl 1, fun _ => rfl⟩
  · cases sq
    · rw [runMain_failure_leftToRight lib arc argv h]
      exact ⟨Nat.le_refl 1, fun _ => rfl⟩
    · rw [runMain_failure_callFirst lib arc argv h]
      exact ⟨Nat.le_refl 1, fun _ => rfl⟩

/-- C8 at a failing library: exactly one call of `SDL_Init`. -/
theorem C8_init_at_most_once_witness :
    libFail.initStatus ≠ 0 ∧
    (runMain libFail Sequencing.leftToRight 1 ["prog"]).trace.countP
      Effect.isInit = 1 :=
  ⟨by decide,
    (C8_init_at_most_once libFail Sequencing.leftToRight 1 ["prog"]).2 (by decide)⟩

/-- C9: started in `NOT_INITIALIZED`, the effects of every run are accepted by
the specification's state machine, and the run ends either in
`NOT_INITIALIZED` with exit code 0 or in `FAILED` with exit code 1; it never
ends in `INITIALIZED`. -/
theorem C9_state_machine (lib : Library) (sq : Sequencing) (arc : Int)
    (argv : List String) :
    ∃ s, specRun lib.initStatus LibState.NOT_INITIALIZED
            (runMain lib sq arc argv).trace = some s ∧
      ((s = LibState.NOT_INITIALIZED ∧ (runMain lib sq arc argv).exitCode = 0) ∨
       (s = LibState.FAILED ∧ (runMain lib sq arc argv).exitCode = 1)) ∧
      s ≠ LibState.INITIALIZED := by
  by_cases h : lib.initStatus = 0
  · rw [runMain_success lib sq arc argv h]
    exact ⟨LibState.NOT_INITIALIZED, by simp [specRun, specStep, h], by simp, by decide⟩
  · cases sq
    · rw [runMain_failure_leftToRight lib arc argv h]
      exact ⟨LibState.FAILED, by simp [specRun, specStep, h], by simp, by decide⟩
    · rw [runMain_failure_callFirst lib arc argv h]
      exact ⟨LibState.FAILED, by simp [specRun, specStep, h], by simp, by decide⟩

/-- C10: the effects of every run occur in a fixed order.  The call of
`SDL_Init` is the first effect and lies before every insertion into standard
output.  When it returns 0, `Hello World!!` is inserted, every such insertion
lies before every call of `SDL_Quit`, the call of `SDL_Quit` is the last
effect, and `SDL_GetError` is not called.  When it returns a non-zero status,
`SDL_GetError` is called exactly once, after the call of `SDL_Init`. -/
theorem C10_effect_order (lib : Library) (sq : Sequencing) (arc : Int)
    (argv : List String) :
    (runMain lib sq arc argv).trace.head? = some (Effect.SDL_Init lib.SDL_INIT_VIDEO) ∧
    Precedes Effect.isInit Effect.isWrite (runMain lib sq arc argv).trace ∧
    (lib.initStatus = 0 →
      Effect.write "Hello World!!" ∈ (runMain lib sq arc argv).trace ∧
      Precedes (fun e => decide (e = Effect.write "Hello World!!")) Effect.isQuit
        (runMain lib sq arc argv).trace ∧
      (runMain lib sq arc argv).trace.getLast? = some Effect.SDL_Quit ∧
      (runMain lib sq arc argv).trace.countP Effect.isGetError = 0) ∧
    (lib.initStatus ≠ 0 →
      (runMain lib sq arc argv).trace.countP Effect.isGetError = 1 ∧
      Precedes Effect.isInit Effect.isGetError (runMain lib sq arc argv).trace) := by
  by_cases h : lib.initStatus = 0
  · rw [runMain_success lib sq arc argv h]
    exact ⟨rfl, precedes_of_precedesB _ _ _ rfl,
      fun _ => ⟨by simp, precedes_of_precedesB _ _ _ rfl, rfl, rfl⟩,
      fun h' => absurd h h'⟩
  · cases sq
    · rw [runMain_failure_leftToRight lib arc argv h]
      exact ⟨rfl, precedes_of_precedesB _ _ _ rfl, fun h' => absurd h' h,
        fun _ => ⟨rfl, precedes_of_precedesB _ _ _ rfl⟩⟩
    · rw [runMain_failure_callFirst lib arc argv h]
      exact ⟨rfl, precedes_of_precedesB _ _ _ rfl, fun h' => absurd h' h,
        fun _ => ⟨rfl, precedes_of_precedesB _ _ _ rfl⟩⟩

/-- C10 at a succeeding and at a failing library. -/
theorem C10_effect_order_witness :
    (libOk.initStatus = 0 ∧
      (runMain libOk Sequencing.leftToRight 1 ["prog"]).trace.getLast?
        = some Effect.SDL_Quit) ∧
    (libFail.initStatus ≠ 0 ∧
      (runMain libFail Sequencing.callFirst 1 ["prog"]).trace.countP
        Effect.isGetError = 1) :=
  ⟨⟨by decide,
      ((C10_effect_order libOk Sequencing.leftToRight 1 ["prog"]).2.2.1
        (by decide)).2.2.1⟩,
    ⟨by decide,
      ((C10_effect_order libFail Sequencing.callFirst 1 ["prog"]).2.2.2
        (by decide)).1⟩⟩

end SdlExample
